import Mathlib

/-!
Verification development for the ImageFX client repository
(`imagefx.py`, `imagefx_streamlit.py`, `imagefx_cli.py`, `cookie_parser.py`).

The repository contains two parallel client implementations: the module-level
client in `imagefx.py` (used by the CLI) and a second copy embedded in
`imagefx_streamlit.py` (used by the Streamlit batch orchestrator).  Both are
embedded here.  Definitions suffixed `Mod` model `imagefx.py`; definitions
suffixed `App` model the copy inside `imagefx_streamlit.py`.

Python-specific behaviour is embedded explicitly:
 - `x or d` on integers / strings is modelled by `pyOrInt` / `pyOrStr`
   (falsy values: `None`, `0`, `""`).
 - optional values that participate in truthiness tests are modelled as
   `Option String` with `pyStrTruthy`.
 - JSON values are modelled by the inductive `Json`; dictionary access
   `d[k]` that can raise `KeyError` is modelled by `Json.lookup`.
 - a Python function that can return an `"Err"` dictionary or raise an
   uncaught exception is modelled by `PyRes` (`ok` / `err` / `exc`).
-/

/-- Python `dataclass Prompt` from `imagefx.py` (same shape in the app copy).
`count` is declared `int = 4` in Python but participates in the builder's
`prompt.count or 4` truthiness test, so it is modelled as `Option Int` with
`none` standing for an unspecified (`None`) value. -/
structure Prompt where
  prompt : String
  count : Option Int := some 4
  seed : Option Int := none
  model : String := "IMAGEN_4"
  aspect_ratio : String := "IMAGE_ASPECT_RATIO_LANDSCAPE"
deriving Repr, DecidableEq

/-- Python `x or d` for an optional integer `x`: `None` and `0` are falsy. -/
def pyOrInt (x : Option Int) (d : Int) : Int :=
  match x with
  | none => d
  | some v => if v = 0 then d else v

/-- Python `s or d` for a string `s`: only `""` is falsy. -/
def pyOrStr (s d : String) : String :=
  if s = "" then d else s

/-- The JSON request body built by `generate_image` (both copies build this
shape; `clientContext` is the fixed constant block). -/
structure RequestBody where
  candidatesCount : Int
  prompts : List String
  seed : Int
  aspectRatio : String
  modelNameType : String
  sessionId : String := ";1740658431200"
  tool : String := "IMAGE_FX"
deriving Repr, DecidableEq

/-- Request construction step of `ImageFX.generate_image` in `imagefx.py`
(lines 208-221).  The function mutates its argument
(`prompt.model = "IMAGEN_3_5"` when the model is `"IMAGEN_4"`), so the
embedding returns the built body together with the prompt object as it is
left after the call. -/
def buildRequestMod (p : Prompt) : RequestBody × Prompt :=
  let q := if p.model = "IMAGEN_4" then { p with model := "IMAGEN_3_5" } else p
  ({ candidatesCount := pyOrInt q.count 4
     prompts := [q.prompt]
     seed := pyOrInt q.seed 0
     aspectRatio := pyOrStr q.aspect_ratio "IMAGE_ASPECT_RATIO_LANDSCAPE"
     modelNameType := pyOrStr q.model "IMAGEN_3_5" }, q)

/-- The `actual_model` computed by the app copy of `generate_image`
(`imagefx_streamlit.py` lines 294-306): for `"IMAGEN_3"` the aspect-ratio
field names the upstream model; `"IMAGEN_4"` is aliased to `"IMAGEN_3_5"`. -/
def actualModelApp (p : Prompt) : String :=
  if p.model = "IMAGEN_3" then p.aspect_ratio
  else if p.model = "IMAGEN_4" then "IMAGEN_3_5" else p.model

/-- The wire aspect-ratio computed by the app copy of `generate_image`. -/
def wireAspectApp (p : Prompt) : String :=
  if p.model = "IMAGEN_3" then "IMAGE_ASPECT_RATIO_UNSPECIFIED" else p.aspect_ratio

/-- Request construction step of the app copy of `ImageFX.generate_image`
(`imagefx_streamlit.py` lines 294-317).  It works on local variables and
does not touch the prompt object. -/
def buildRequestApp (p : Prompt) : RequestBody :=
  { candidatesCount := pyOrInt p.count 4
    prompts := [p.prompt]
    seed := pyOrInt p.seed 0
    aspectRatio := wireAspectApp p
    modelNameType := actualModelApp p }

/-- An IMAGEN_3 request with the portrait variant selected, as produced by
`imagefx_cli.py --model IMAGEN_3 --ratio IMAGEN_3_PORTRAIT` (the CLI
validates exactly this variant set before building the prompt). -/
def promptImagen3 : Prompt :=
  { prompt := "a cat", model := "IMAGEN_3", aspect_ratio := "IMAGEN_3_PORTRAIT" }

/-- C2: the claim is the intended behaviour and holds for the app client,
but the module client (`imagefx.py`, used by the CLI which advertises and
validates the IMAGEN_3 variants) does not implement the variant swap: it
sends `modelNameType = "IMAGEN_3"` and puts the variant name in the wire
aspect-ratio field.  This theorem evaluates both builders at the failing
input. -/
theorem C2_module_builder_drops_imagen3_variant :
    (buildRequestMod promptImagen3).1.modelNameType = "IMAGEN_3"
  ∧ (buildRequestMod promptImagen3).1.aspectRatio = "IMAGEN_3_PORTRAIT"
  ∧ (buildRequestApp promptImagen3).modelNameType = "IMAGEN_3_PORTRAIT"
  ∧ (buildRequestApp promptImagen3).aspectRatio = "IMAGE_ASPECT_RATIO_UNSPECIFIED" := by
  decide

/-- A request whose count is negative: `prompt.count or 4` keeps it. -/
def promptNegCount : Prompt :=
  { prompt := "a cat", count := some (-1) }

/-- C7 counterexample: the claim says `candidatesCount` is 4 whenever the
request count is unspecified or non-positive, but a negative count is truthy
in Python, so `prompt.count or 4` passes `-1` through in both builders. -/
theorem C7_counterexample_negative_count :
    (buildRequestApp promptNegCount).candidatesCount = -1
  ∧ (buildRequestMod promptNegCount).1.candidatesCount = -1
  ∧ promptNegCount.count = some (-1)
  ∧ (-1 : Int) < 0
  ∧ (-1 : Int) ≠ 4 := by
  decide

/-- C7 (amended): in both builders `candidatesCount` is 4 when the count is
unspecified (`None`) or zero and is the given count otherwise (negative
counts pass through unchanged); `seed` is 0 when unset and the given seed
otherwise. -/
theorem C7_count_and_seed_defaults (p : Prompt) :
    ((p.count = none ∨ p.count = some 0) →
      (buildRequestApp p).candidatesCount = 4 ∧ (buildRequestMod p).1.candidatesCount = 4)
  ∧ (∀ c : Int, p.count = some c → c ≠ 0 →
      (buildRequestApp p).candidatesCount = c ∧ (buildRequestMod p).1.candidatesCount = c)
  ∧ (p.seed = none → (buildRequestApp p).seed = 0 ∧ (buildRequestMod p).1.seed = 0)
  ∧ (∀ s : Int, p.seed = some s →
      (buildRequestApp p).seed = s ∧ (buildRequestMod p).1.seed = s) := by
  refine ⟨?_, ?_, ?_, ?_⟩
  · rintro (h | h) <;>
      by_cases hm : p.model = "IMAGEN_4" <;>
      simp [buildRequestApp, buildRequestMod, pyOrInt, h, hm]
  · intro c hc hne
    by_cases hm : p.model = "IMAGEN_4" <;>
      simp [buildRequestApp, buildRequestMod, pyOrInt, hc, hne, hm]
  · intro h
    by_cases hm : p.model = "IMAGEN_4" <;>
      simp [buildRequestApp, buildRequestMod, pyOrInt, h, hm]
  · intro s hs
    by_cases hz : s = 0 <;>
      by_cases hm : p.model = "IMAGEN_4" <;>
      simp [buildRequestApp, buildRequestMod, pyOrInt, hs, hz, hm]

/-- A request used to instantiate the C7 amended theorem. -/
def promptCountSeven : Prompt :=
  { prompt := "a cat", count := some 7, seed := some 5 }

/-- C7 witness: the amended theorem applied at a concrete request with
count 7 and seed 5. -/
theorem C7_count_and_seed_defaults_witness :
    ((buildRequestApp promptCountSeven).candidatesCount = 7
      ∧ (buildRequestMod promptCountSeven).1.candidatesCount = 7)
  ∧ ((buildRequestApp promptCountSeven).seed = 5
      ∧ (buildRequestMod promptCountSeven).1.seed = 5) :=
  ⟨(C7_count_and_seed_defaults promptCountSeven).2.1 7 rfl (by decide),
   (C7_count_and_seed_defaults promptCountSeven).2.2.2 5 rfl⟩

/-- An IMAGEN_4 request (the model value named by the claim). -/
def promptImagen4 : Prompt :=
  { prompt := "a cat" }

/-- C8 counterexample: the module builder is not free of effects on its
input: for a request with model `"IMAGEN_4"` the request object's model
field reads `"IMAGEN_3_5"` after the build step, so the request is not
unchanged. -/
theorem C8_counterexample_request_mutated :
    promptImagen4.model = "IMAGEN_4"
  ∧ (buildRequestMod promptImagen4).2.model = "IMAGEN_3_5"
  ∧ (buildRequestMod promptImagen4).2 ≠ promptImagen4 := by
  decide

/-- C8 (amended): the app builder computes the payload from the request
without touching it; the module builder leaves the request unchanged exactly
when its model is not `"IMAGEN_4"`, and for `"IMAGEN_4"` it rewrites the
model field in place to `"IMAGEN_3_5"`, leaving every other field
unchanged. -/
theorem C8_module_build_mutates_only_imagen4_model (p : Prompt) :
    (p.model ≠ "IMAGEN_4" → (buildRequestMod p).2 = p)
  ∧ (p.model = "IMAGEN_4" → (buildRequestMod p).2 = { p with model := "IMAGEN_3_5" })
  ∧ (buildRequestMod p).2.prompt = p.prompt
  ∧ (buildRequestMod p).2.count = p.count
  ∧ (buildRequestMod p).2.seed = p.seed
  ∧ (buildRequestMod p).2.aspect_ratio = p.aspect_ratio := by
  by_cases hm : p.model = "IMAGEN_4" <;> simp [buildRequestMod, hm]

/-- A request whose model is not rewritten by the module builder. -/
def promptImagen2 : Prompt :=
  { prompt := "a cat", model := "IMAGEN_2" }

/-- C8 witness: the amended theorem applied at a concrete IMAGEN_2 request,
whose request object the module builder leaves untouched. -/
theorem C8_module_build_mutates_only_imagen4_model_witness :
    (buildRequestMod promptImagen2).2 = promptImagen2 :=
  (C8_module_build_mutates_only_imagen4_model promptImagen2).1 (by decide)

/-- A JSON value, as produced by `json.loads`. -/
inductive Json where
  | null
  | bool (b : Bool)
  | num (n : Int)
  | str (s : String)
  | arr (elems : List Json)
  | obj (fields : List (String × Json))
deriving Repr

/-- Dictionary lookup `d.get(k)`: `some` when `j` is an object containing the
key, `none` otherwise. -/
def Json.lookup : Json → String → Option Json
  | .obj fs, k => fs.lookup k
  | _, _ => none

/-- Python truthiness of a JSON value (`if not x:`): `None`, `False`, `0`,
`""`, `[]` and `{}` are falsy. -/
def Json.isTruthy : Json → Bool
  | .null => false
  | .bool b => b
  | .num n => n != 0
  | .str s => s != ""
  | .arr xs => !xs.isEmpty
  | .obj fs => !fs.isEmpty

/-- Python `dataclass GeneratedImage`.  Python stores whatever JSON values
the response carried, so every wire-derived field is a `Json`.
`projectTitle` models the `project_title` attribute that the Streamlit
orchestrator attaches to each image (absent until stamped, modelled as
`""`). -/
structure GeneratedImage where
  encodedImage : Json
  seed : Json
  mediaGenerationId : Json
  isMaskEditedImage : Json
  prompt : Json
  modelNameType : Json
  workflowId : Json
  fingerprintLogRecordId : Json
  projectTitle : String := ""
deriving Repr

/-- Outcome of a Python call that returns an `{"Ok": ...}` / `{"Err": ...}`
dictionary but may also raise an exception that the function itself does not
catch: `ok` and `err` are the two returned forms, `exc` is an uncaught
exception escaping the call.  Error strings are abbreviated: the Python code
interpolates the response body into its messages. -/
inductive PyRes (α : Type) where
  | ok (val : α)
  | err (msg : String)
  | exc (msg : String)
deriving Repr

/-- Image-record extraction loop of `imagefx.py` `generate_image`
(lines 240-252): every field is accessed with `img[...]`, so an entry
missing any of the eight keys raises `KeyError`, which the surrounding
`except (json.JSONDecodeError, KeyError)` turns into an `Err` for the whole
response; a non-dict entry raises `TypeError`, which nothing catches. -/
def extractImagesMod : List Json → PyRes (List GeneratedImage)
  | [] => .ok []
  | img :: rest =>
    match img with
    | .obj _ =>
      match img.lookup "encodedImage", img.lookup "seed", img.lookup "mediaGenerationId",
            img.lookup "isMaskEditedImage", img.lookup "prompt", img.lookup "modelNameType",
            img.lookup "workflowId", img.lookup "fingerprintLogRecordId" with
      | some enc, some sd, some mid, some mask, some pr, some mnt, some wf, some fp =>
        match extractImagesMod rest with
        | .ok gs => .ok ({ encodedImage := enc, seed := sd, mediaGenerationId := mid,
                           isMaskEditedImage := mask, prompt := pr, modelNameType := mnt,
                           workflowId := wf, fingerprintLogRecordId := fp } :: gs)
        | .err m => .err m
        | .exc m => .exc m
      | _, _, _, _, _, _, _, _ => .err "Failed to parse JSON"
    | _ => .exc "TypeError"

/-- Response decoding of `imagefx.py` `generate_image` (lines 233-257) on an
already-`json.loads`-parsed body.  `parsed_res["imagePanels"][0]` on an
empty panel list raises `IndexError`, which the `except (json.JSONDecodeError,
KeyError)` clause does not catch, so it escapes the call. -/
def parseGenResponseMod (j : Json) : PyRes (List GeneratedImage) :=
  match j with
  | .obj _ =>
    match j.lookup "imagePanels" with
    | none => .err "Failed to parse JSON"
    | some panels =>
      match panels with
      | .arr [] => .exc "IndexError: list index out of range"
      | .arr (p0 :: _) =>
        match p0 with
        | .obj _ =>
          match p0.lookup "generatedImages" with
          | none => .err "Failed to parse JSON"
          | some images =>
            match images with
            | .arr imgs => extractImagesMod imgs
            | _ => .err "Invalid response received"
        | _ => .exc "TypeError"
      | .obj _ => .err "Failed to parse JSON"
      | .str s => if s.isEmpty then .exc "IndexError: string index out of range"
                  else .exc "TypeError"
      | _ => .exc "TypeError"
  | _ => .exc "TypeError"

/-- Image-record extraction loop of the app copy of `generate_image`
(`imagefx_streamlit.py` lines 352-368): only `encodedImage` is accessed with
`img[...]`; its `KeyError` is caught per entry (`continue`), every other
field uses `.get` with a default.  A non-dict entry raises `TypeError`,
which falls through to the catch-all `except Exception` of the caller. -/
def extractImagesApp (promptText actualModel : String) : List Json → Except String (List GeneratedImage)
  | [] => .ok []
  | img :: rest =>
    match img with
    | .obj _ =>
      match img.lookup "encodedImage" with
      | none => extractImagesApp promptText actualModel rest
      | some enc =>
        match extractImagesApp promptText actualModel rest with
        | .ok gs => .ok ({ encodedImage := enc,
                           seed := (img.lookup "seed").getD (.num 0),
                           mediaGenerationId := (img.lookup "mediaGenerationId").getD (.str ""),
                           isMaskEditedImage := (img.lookup "isMaskEditedImage").getD (.bool false),
                           prompt := (img.lookup "prompt").getD (.str promptText),
                           modelNameType := (img.lookup "modelNameType").getD (.str actualModel),
                           workflowId := (img.lookup "workflowId").getD (.str ""),
                           fingerprintLogRecordId := (img.lookup "fingerprintLogRecordId").getD (.str "") } :: gs)
        | .error m => .error m
    | _ => .error "Unexpected error"

/-- Response decoding of the app copy of `generate_image`
(`imagefx_streamlit.py` lines 329-378) on an already-parsed body: explicit
`imagePanels` presence and truthiness checks, `.get("generatedImages", [])`,
an empty-image-list check, per-entry lenient extraction, and an
`except Exception` catch-all (modelled as the `"Unexpected error"` results
for shapes on which the Python code would raise). -/
def parseGenResponseApp (promptText actualModel : String) (j : Json) : Except String (List GeneratedImage) :=
  match j with
  | .obj _ =>
    match j.lookup "imagePanels" with
    | none => .error "Unexpected response structure"
    | some panels =>
      if !panels.isTruthy then .error "No image panels in response"
      else
        match panels with
        | .arr (p0 :: _) =>
          match p0 with
          | .obj _ =>
            match (p0.lookup "generatedImages").getD (.arr []) with
            | .arr imgs =>
              if imgs.isEmpty then .error "No images generated"
              else
                match extractImagesApp promptText actualModel imgs with
                | .error m => .error m
                | .ok gens =>
                  if gens.isEmpty then .error "Failed to parse any images from response"
                  else .ok gens
            | _ => .error "Invalid response received"
          | _ => .error "Unexpected error"
        | _ => .error "Unexpected error"
  | .arr _ => .error "Unexpected response structure"
  | _ => .error "Unexpected error"

/-- A well-formed image entry that lacks only the optional `seed` field. -/
def imgNoSeed : Json :=
  .obj [("encodedImage", .str "QUFB"), ("mediaGenerationId", .str "mid"),
        ("isMaskEditedImage", .bool false), ("prompt", .str "a cat"),
        ("modelNameType", .str "IMAGEN_3_5"), ("workflowId", .str "wf"),
        ("fingerprintLogRecordId", .str "fp")]

/-- A generation response whose single image entry is `imgNoSeed`. -/
def respMissingSeed : Json :=
  .obj [("imagePanels", .arr [.obj [("generatedImages", .arr [imgNoSeed])]])]

/-- C4 counterexample: for a response whose single image entry merely lacks
the optional `seed` field, the module client (`imagefx.py`) fails the whole
response (its extraction indexes every field, so the `KeyError` aborts all
entries), contradicting the claim that a missing optional field is filled
with a default rather than failing the response.  The app client fills the
default as claimed. -/
theorem C4_counterexample_module_fails_on_missing_seed :
    imgNoSeed.lookup "encodedImage" = some (.str "QUFB")
  ∧ imgNoSeed.lookup "seed" = none
  ∧ parseGenResponseMod respMissingSeed = .err "Failed to parse JSON"
  ∧ parseGenResponseApp "a cat" "IMAGEN_3_5" respMissingSeed =
      .ok [{ encodedImage := .str "QUFB", seed := .num 0, mediaGenerationId := .str "mid",
             isMaskEditedImage := .bool false, prompt := .str "a cat",
             modelNameType := .str "IMAGEN_3_5", workflowId := .str "wf",
             fingerprintLogRecordId := .str "fp" }] :=
  ⟨rfl, rfl, rfl, rfl⟩

/-- The image record the app client builds for an entry that carries only
`encodedImage`: every optional field filled with its defined default. -/
def appDefaultImage (pt am : String) (enc : Json) : GeneratedImage :=
  { encodedImage := enc, seed := .num 0, mediaGenerationId := .str "",
    isMaskEditedImage := .bool false, prompt := .str pt, modelNameType := .str am,
    workflowId := .str "", fingerprintLogRecordId := .str "" }

/-- App-client extraction returns no records when every entry is an object
without `encodedImage` (each entry's `KeyError` is caught and skipped). -/
theorem extractImagesApp_all_missing_enc (pt am : String) :
    ∀ imgs : List Json,
      (∀ e ∈ imgs, ∃ efs, e = Json.obj efs ∧ (Json.obj efs).lookup "encodedImage" = none) →
      extractImagesApp pt am imgs = .ok [] := by
  intro imgs
  induction imgs with
  | nil => intro _; rfl
  | cons e rest ih =>
    intro h
    obtain ⟨efs, rfl, hnone⟩ := h e (List.mem_cons_self e rest)
    have hrest := ih (fun x hx => h x (List.mem_cons_of_mem _ hx))
    simp [extractImagesApp, hnone, hrest]

/-- C4 (amended): in the app client (`imagefx_streamlit.py`), an image entry
that carries `encodedImage` but none of the optional fields (seed, ids,
flags) is kept with every optional field filled by its defined default; and
a response in which every image entry fails minimal field extraction (no
`encodedImage`) yields the no-usable-images error, never a success with an
empty image list.  The module client (`imagefx.py`) instead fails the whole
response on any missing field. -/
theorem C4_app_lenient_defaults_and_no_usable_images :
    (∀ (pt am : String) (fs : List (String × Json)) (enc : Json) (rest : List Json),
      (Json.obj fs).lookup "encodedImage" = some enc →
      (Json.obj fs).lookup "seed" = none →
      (Json.obj fs).lookup "mediaGenerationId" = none →
      (Json.obj fs).lookup "isMaskEditedImage" = none →
      (Json.obj fs).lookup "prompt" = none →
      (Json.obj fs).lookup "modelNameType" = none →
      (Json.obj fs).lookup "workflowId" = none →
      (Json.obj fs).lookup "fingerprintLogRecordId" = none →
      extractImagesApp pt am (Json.obj fs :: rest) =
        (extractImagesApp pt am rest).map (fun gs => appDefaultImage pt am enc :: gs))
  ∧ (∀ (pt am : String) (jfs pfs : List (String × Json)) (ps imgs : List Json),
      (Json.obj jfs).lookup "imagePanels" = some (.arr (Json.obj pfs :: ps)) →
      (Json.obj pfs).lookup "generatedImages" = some (.arr imgs) →
      imgs ≠ [] →
      (∀ e ∈ imgs, ∃ efs, e = Json.obj efs ∧ (Json.obj efs).lookup "encodedImage" = none) →
      parseGenResponseApp pt am (Json.obj jfs) =
        .error "Failed to parse any images from response") := by
  constructor
  · intro pt am fs enc rest h0 h1 h2 h3 h4 h5 h6 h7
    cases hrest : extractImagesApp pt am rest with
    | ok gs =>
      simp [extractImagesApp, h0, h1, h2, h3, h4, h5, h6, h7, hrest, Except.map, appDefaultImage]
    | error m =>
      simp [extractImagesApp, h0, hrest, Except.map]
  · intro pt am jfs pfs ps imgs hp hg hne hall
    have hext := extractImagesApp_all_missing_enc pt am imgs hall
    cases imgs with
    | nil => exact absurd rfl hne
    | cons a as =>
      simp [parseGenResponseApp, hp, hg, Json.isTruthy, hext]

/-- C4 witness: both parts of the amended theorem at concrete inputs: a
single entry carrying only `encodedImage` is default-filled, and a response
whose only image entry is an empty object yields the no-usable-images
error. -/
theorem C4_app_lenient_defaults_and_no_usable_images_witness :
    extractImagesApp "p" "m" [Json.obj [("encodedImage", Json.str "E")]] =
      (extractImagesApp "p" "m" []).map (fun gs => appDefaultImage "p" "m" (Json.str "E") :: gs)
  ∧ parseGenResponseApp "p" "m"
      (Json.obj [("imagePanels", Json.arr [Json.obj [("generatedImages", Json.arr [Json.obj []])]])]) =
      .error "Failed to parse any images from response" :=
  ⟨C4_app_lenient_defaults_and_no_usable_images.1 "p" "m"
      [("encodedImage", Json.str "E")] (Json.str "E") [] rfl rfl rfl rfl rfl rfl rfl rfl,
   C4_app_lenient_defaults_and_no_usable_images.2 "p" "m"
      [("imagePanels", Json.arr [Json.obj [("generatedImages", Json.arr [Json.obj []])]])]
      [("generatedImages", Json.arr [Json.obj []])] [] [Json.obj []] rfl rfl
      (List.cons_ne_nil _ _)
      (by intro e he
          simp only [List.mem_singleton] at he
          exact ⟨[], he, rfl⟩)⟩

/-- A generation response with an empty `imagePanels` list. -/
def respEmptyPanels : Json := .obj [("imagePanels", .arr [])]

/-- C5 counterexample: on a valid-JSON body with `imagePanels: []` the
module client (`imagefx.py`) does not return an error result: indexing
`["imagePanels"][0]` raises `IndexError`, which its
`except (json.JSONDecodeError, KeyError)` clause does not catch, so the
exception escapes `generate_image` instead of a `MalformedResponse`-style
`Err` being returned. -/
theorem C5_counterexample_module_raises_on_empty_panels :
    respEmptyPanels.lookup "imagePanels" = some (.arr [])
  ∧ parseGenResponseMod respEmptyPanels = .exc "IndexError: list index out of range" :=
  ⟨rfl, rfl⟩

/-- C5 (amended): for every valid-JSON generation response whose
`imagePanels` is the empty list, the app client returns the
no-image-panels error (never a success with zero images), while the module
client raises an uncaught `IndexError` (also never a success). -/
theorem C5_empty_panels (pt am : String) (j : Json)
    (h : j.lookup "imagePanels" = some (.arr [])) :
    parseGenResponseApp pt am j = .error "No image panels in response"
  ∧ parseGenResponseMod j = .exc "IndexError: list index out of range" := by
  cases j <;> simp [Json.lookup] at h ⊢
  case obj fs =>
    constructor
    · simp [parseGenResponseApp, Json.lookup, h, Json.isTruthy]
    · simp [parseGenResponseMod, Json.lookup, h]

/-- C5 witness: the amended theorem at the concrete empty-panels response. -/
theorem C5_empty_panels_witness :
    parseGenResponseApp "p" "m" respEmptyPanels = .error "No image panels in response"
  ∧ parseGenResponseMod respEmptyPanels = .exc "IndexError: list index out of range" :=
  C5_empty_panels "p" "m" respEmptyPanels rfl

/-- Python `dataclass Credentials` from `imagefx.py` (same shape in the app
copy). -/
structure Credentials where
  cookie : Option String := none
  authorization_key : Option String := none
  cookie_file : Option String := none
deriving Repr, DecidableEq

/-- Python truthiness of an optional string: `None` and `""` are falsy. -/
def pyStrTruthy : Option String → Bool
  | none => false
  | some s => s != ""

/-- The fixed cookie-name marker that `ImageFX.__init__` prepends. -/
def sessionTokenMarker : String := "__Secure-next-auth.session-token="

/-- Python `s.startswith(p)`, via the character lists of the strings. -/
def pyStartsWith (s p : String) : Bool :=
  p.data.isPrefixOf s.data

/-- Credential validation and cookie normalization of `ImageFX.__init__`
(`imagefx.py` lines 76-85, identical in the app copy lines 190-199): the
steps that run after any cookie file has been loaded. -/
def finishInit (c : Credentials) : Except String Credentials :=
  if !pyStrTruthy c.authorization_key && !pyStrTruthy c.cookie then
    .error "No valid authentication credentials found."
  else if (match c.cookie with
           | some s => s != "" && decide (s.length < 70)
           | none => false) then
    .error "Invalid cookie was provided."
  else
    .ok { c with cookie :=
      match c.cookie with
      | some s => if s != "" && !pyStartsWith s sessionTokenMarker
                  then some (sessionTokenMarker ++ s) else some s
      | none => none }

/-- `ImageFX.__init__` (`imagefx.py` lines 57-85).  The cookie-file
collaborator (`CookieParser.get_auth_credentials` plus the file system) is
modelled by `fileTokens`: `none` means the file does not exist
(`FileNotFoundError`), `some none` means no session token was found in it,
`some (some t)` means the extracted session token is `t` (an extracted `""`
is falsy in Python and also reported as no token found). -/
def initImageFX (c : Credentials) (fileTokens : String → Option (Option String)) :
    Except String Credentials :=
  if !pyStrTruthy c.authorization_key && !pyStrTruthy c.cookie
      && !pyStrTruthy c.cookie_file then
    .error "Authorization token, Cookie, or Cookie file must be provided."
  else if pyStrTruthy c.cookie_file then
    match c.cookie_file with
    | some path =>
      match fileTokens path with
      | none => .error "Failed to load cookies from file: Cookie file not found"
      | some none => .error "Failed to load cookies from file: No session token found in cookie file"
      | some (some t) =>
        if t == "" then
          .error "Failed to load cookies from file: No session token found in cookie file"
        else finishInit { c with cookie := some t }
    | none => finishInit c
  else finishInit c

/-- A character list is a Boolean initial segment of itself followed by
anything. -/
theorem isPrefixOf_self_append (l t : List Char) : l.isPrefixOf (l ++ t) = true := by
  induction l with
  | nil => cases t <;> rfl
  | cons a l ih => simp [List.isPrefixOf, ih]

/-- The marker-prepending result always starts with the marker. -/
theorem pyStartsWith_marker_append (s : String) :
    pyStartsWith (sessionTokenMarker ++ s) sessionTokenMarker = true := by
  simp only [pyStartsWith, String.data_append]
  exact isPrefixOf_self_append _ _

/-- Resolution of a cookie-only credential set that passes the length
check: the outcome is the normalized cookie. -/
theorem initImageFX_cookie_only (s : String) (ak : Option String)
    (ft : String → Option (Option String)) (hs : s ≠ "") (hnl : ¬ s.length < 70) :
    initImageFX { cookie := some s, authorization_key := ak, cookie_file := none } ft
      = .ok { cookie := some (if pyStartsWith s sessionTokenMarker then s
                              else sessionTokenMarker ++ s),
              authorization_key := ak, cookie_file := none } := by
  cases hsw : pyStartsWith s sessionTokenMarker <;>
    simp [initImageFX, finishInit, pyStrTruthy, hs, hnl, hsw]

/-- C9: every cookie value accepted by credential resolution is carried with
the session-token marker exactly once: an unprefixed value gets the marker
prepended once, an already-prefixed value is returned unchanged, and
resolving the resolved value again leaves it unchanged (idempotence, so
resolving twice never double-prefixes). -/
theorem C9_cookie_marker_exactly_once (s : String) (ak : Option String)
    (ft : String → Option (Option String)) (hlen : 70 ≤ s.length) :
    ∃ v, initImageFX { cookie := some s, authorization_key := ak, cookie_file := none } ft
          = .ok { cookie := some v, authorization_key := ak, cookie_file := none }
      ∧ pyStartsWith v sessionTokenMarker = true
      ∧ (pyStartsWith s sessionTokenMarker = true → v = s)
      ∧ (pyStartsWith s sessionTokenMarker = false → v = sessionTokenMarker ++ s)
      ∧ initImageFX { cookie := some v, authorization_key := ak, cookie_file := none } ft
          = .ok { cookie := some v, authorization_key := ak, cookie_file := none } := by
  have hs : s ≠ "" := by
    intro h
    rw [h] at hlen
    simp at hlen
  have hnl : ¬ s.length < 70 := by omega
  cases hsw : pyStartsWith s sessionTokenMarker with
  | true =>
    refine ⟨s, ?_, hsw, fun _ => rfl, fun h => by simp [hsw] at h, ?_⟩
    · rw [initImageFX_cookie_only s ak ft hs hnl, hsw]
      simp
    · rw [initImageFX_cookie_only s ak ft hs hnl, hsw]
      simp
  | false =>
    have hsw2 : pyStartsWith (sessionTokenMarker ++ s) sessionTokenMarker = true :=
      pyStartsWith_marker_append s
    have hs2 : sessionTokenMarker ++ s ≠ "" := by
      intro h
      have := congrArg String.length h
      rw [String.length_append] at this
      simp at this
      omega
    have hnl2 : ¬ (sessionTokenMarker ++ s).length < 70 := by
      rw [String.length_append]
      omega
    refine ⟨sessionTokenMarker ++ s, ?_, hsw2,
      fun h => by simp [hsw] at h, fun _ => rfl, ?_⟩
    · rw [initImageFX_cookie_only s ak ft hs hnl, hsw]
      simp
    · rw [initImageFX_cookie_only (sessionTokenMarker ++ s) ak ft hs2 hnl2, hsw2]
      simp

/-- A 72-character cookie value, long enough to pass the length check. -/
def sampleCookie : String :=
  "aaaaaaaaaaaaaaaaaaaaaaaaaaaaaaaaaaaaaaaaaaaaaaaaaaaaaaaaaaaaaaaaaaaaaa"

/-- C9 witness: the theorem applied at a concrete 72-character cookie. -/
theorem C9_cookie_marker_exactly_once_witness :
    ∃ v, initImageFX { cookie := some sampleCookie, authorization_key := none,
                       cookie_file := none } (fun _ => none)
          = .ok { cookie := some v, authorization_key := none, cookie_file := none }
      ∧ pyStartsWith v sessionTokenMarker = true
      ∧ (pyStartsWith sampleCookie sessionTokenMarker = true → v = sampleCookie)
      ∧ (pyStartsWith sampleCookie sessionTokenMarker = false →
          v = sessionTokenMarker ++ sampleCookie)
      ∧ initImageFX { cookie := some v, authorization_key := none, cookie_file := none }
          (fun _ => none)
          = .ok { cookie := some v, authorization_key := none, cookie_file := none } :=
  C9_cookie_marker_exactly_once sampleCookie none (fun _ => none) (by decide)

/-- C10: when credentials carry both a non-empty cookie value and a cookie
file, and the file yields a session token, the file token unconditionally
replaces the supplied cookie before the length-70 validation and the marker
normalization run: resolution is independent of the supplied cookie value,
the length check applies to the file token (a short file token rejects the
run even if the supplied cookie was valid), and the normalized file token is
the resolved cookie. -/
theorem C10_cookie_file_overrides_cookie (s t path : String) (ak : Option String)
    (ft : String → Option (Option String)) (hpath : path ≠ "")
    (hft : ft path = some (some t)) (ht : t ≠ "") (hs : s ≠ "") :
    initImageFX { cookie := some s, authorization_key := ak, cookie_file := some path } ft
      = finishInit { cookie := some t, authorization_key := ak, cookie_file := some path }
  ∧ (∀ s', s' ≠ "" →
      initImageFX { cookie := some s', authorization_key := ak, cookie_file := some path } ft
      = initImageFX { cookie := some s, authorization_key := ak, cookie_file := some path } ft)
  ∧ (t.length < 70 →
      initImageFX { cookie := some s, authorization_key := ak, cookie_file := some path } ft
      = .error "Invalid cookie was provided.")
  ∧ (¬ t.length < 70 →
      initImageFX { cookie := some s, authorization_key := ak, cookie_file := some path } ft
      = .ok { cookie := some (if pyStartsWith t sessionTokenMarker then t
                              else sessionTokenMarker ++ t),
              authorization_key := ak, cookie_file := some path }) := by
  have hmain : ∀ s' : String, s' ≠ "" →
      initImageFX { cookie := some s', authorization_key := ak, cookie_file := some path } ft
      = finishInit { cookie := some t, authorization_key := ak, cookie_file := some path } := by
    intro s' hs'
    simp [initImageFX, pyStrTruthy, hs', hpath, hft, ht]
  refine ⟨hmain s hs, fun s' hs' => by rw [hmain s' hs', hmain s hs], ?_, ?_⟩
  · intro hshort
    rw [hmain s hs]
    simp [finishInit, pyStrTruthy, ht, hshort]
  · intro hlong
    rw [hmain s hs]
    cases hsw : pyStartsWith t sessionTokenMarker <;>
      simp [finishInit, pyStrTruthy, ht, hlong, hsw]

/-- C10 witness: the theorem applied with supplied cookie `"b"`, a cookie
file `"cookies.txt"` whose collaborator yields the 72-character
`sampleCookie` as session token. -/
theorem C10_cookie_file_overrides_cookie_witness :
    initImageFX { cookie := some "b", authorization_key := none,
                  cookie_file := some "cookies.txt" } (fun _ => some (some sampleCookie))
      = finishInit { cookie := some sampleCookie, authorization_key := none,
                     cookie_file := some "cookies.txt" }
  ∧ (¬ sampleCookie.length < 70 →
      initImageFX { cookie := some "b", authorization_key := none,
                    cookie_file := some "cookies.txt" } (fun _ => some (some sampleCookie))
      = .ok { cookie := some (if pyStartsWith sampleCookie sessionTokenMarker then sampleCookie
                              else sessionTokenMarker ++ sampleCookie),
              authorization_key := none, cookie_file := some "cookies.txt" }) :=
  ⟨(C10_cookie_file_overrides_cookie "b" sampleCookie "cookies.txt" none
      (fun _ => some (some sampleCookie)) (by decide) rfl (by decide) (by decide)).1,
   (C10_cookie_file_overrides_cookie "b" sampleCookie "cookies.txt" none
      (fun _ => some (some sampleCookie)) (by decide) rfl (by decide) (by decide)).2.2.2⟩

/-- Instrumentation events of a client run: one `checkToken` per entry into
`check_token` (each entry evaluates the bearer-token presence test), one
`sessionGet` per GET of the session endpoint inside `get_auth_token`, one
`generatePost` (recording the bearer used) per POST of the generation
endpoint. -/
inductive Event where
  | checkToken
  | sessionGet
  | generatePost (bearer : Option String)
deriving Repr, DecidableEq

/-- Upstream behaviour of one GET of the session endpoint, at the
granularity at which `get_auth_token` inspects it: transport failure,
non-JSON body, JSON body without `access_token`, or a token. -/
inductive SessionResp where
  | transportErr (msg : String)
  | badJson
  | noToken
  | token (t : String)
deriving Repr, DecidableEq

/-- Upstream behaviour of one POST of the generation endpoint. -/
inductive GenResp where
  | transportErr (msg : String)
  | badJson
  | body (j : Json)
deriving Repr

/-- `ImageFX.get_auth_token` from `imagefx.py` (lines 159-192): requires a
cookie, performs the session GET, and on success returns the access token,
writing it into the shared credentials when `mutate` is set. -/
def getAuthTokenMod (mutate : Bool) (resp : SessionResp) (c : Credentials) :
    Except String String × Credentials × List Event :=
  if !pyStrTruthy c.cookie then
    (.error "Cookie is required for generating auth token.", c, [])
  else
    match resp with
    | .transportErr m => (.error m, c, [.sessionGet])
    | .badJson => (.error "Failed to parse response", c, [.sessionGet])
    | .noToken => (.error "Access token is missing from response", c, [.sessionGet])
    | .token t =>
      (.ok t, if mutate then { c with authorization_key := some t } else c, [.sessionGet])

/-- `ImageFX.check_token` from `imagefx.py` (lines 141-157): errors when
both credentials are absent; performs the exchange (with `mutate=True`) only
when a cookie is present and no bearer token is; otherwise succeeds
immediately. -/
def checkTokenMod (resp : SessionResp) (c : Credentials) :
    Except String Bool × Credentials × List Event :=
  if !pyStrTruthy c.authorization_key && !pyStrTruthy c.cookie then
    (.error "Authorization token and Cookie both are missing.", c, [.checkToken])
  else if pyStrTruthy c.cookie && !pyStrTruthy c.authorization_key then
    match getAuthTokenMod true resp c with
    | (.error m, c1, evs) => (.error m, c1, .checkToken :: evs)
    | (.ok _, c1, evs) => (.ok true, c1, .checkToken :: evs)
  else (.ok true, c, [.checkToken])

/-- `ImageFX.generate_image` from `imagefx.py` (lines 194-257): check the
token, build the request (mutating the prompt), POST, decode.  Returns the
result, the credentials and prompt as left afterwards, and the events. -/
def generateImageMod (sresp : SessionResp) (gresp : GenResp) (p : Prompt) (c : Credentials) :
    PyRes (List GeneratedImage) × Credentials × Prompt × List Event :=
  match checkTokenMod sresp c with
  | (.error m, c1, evs) => (.err m, c1, p, evs)
  | (.ok _, c1, evs) =>
    let bp := buildRequestMod p
    let evs2 := evs ++ [.generatePost c1.authorization_key]
    match gresp with
    | .transportErr m => (.err m, c1, bp.2, evs2)
    | .badJson => (.err "Failed to parse JSON", c1, bp.2, evs2)
    | .body j => (parseGenResponseMod j, c1, bp.2, evs2)

/-- A sequence of `generate_image` calls on one `ImageFX` instance: each
call receives its own upstream responses; credentials thread through. -/
def runCallsMod : List (SessionResp × GenResp × Prompt) → Credentials → Credentials × List Event
  | [], c => (c, [])
  | (s, g, p) :: rest, c =>
    let r := generateImageMod s g p c
    let next := runCallsMod rest r.2.1
    (next.1, r.2.2.2 ++ next.2)

/-- Two consecutive calls with a working token exchange and failing
generation calls. -/
def twoCallInputs : List (SessionResp × GenResp × Prompt) :=
  [(.token "tok", .transportErr "boom", { prompt := "a" }),
   (.token "tok", .transportErr "boom", { prompt := "b" })]

/-- Cookie-only credentials, as a run that must exchange the cookie uses. -/
def cookieOnlyCreds : Credentials := { cookie := some sampleCookie }

/-- C3 counterexample: the claim says the bearer-token presence test runs
once before the first generation call, not before every call; but
`generate_image` enters `check_token` on every call, so a two-call run on
one instance performs the presence test twice, not once. -/
theorem C3_counterexample_checked_every_call :
    (runCallsMod twoCallInputs cookieOnlyCreds).2.count .checkToken = 2
  ∧ (2 : Nat) ≠ 1 := by
  decide

/-- Evaluation of one `generate_image` call when a bearer token is already
present: the presence test runs, no session GET happens, the credentials are
left unchanged, and the POST carries the existing token. -/
theorem generateImageMod_auth_present (s : SessionResp) (g : GenResp) (p : Prompt)
    (c : Credentials) (t : String) (ht : t ≠ "") (hak : c.authorization_key = some t) :
    (generateImageMod s g p c).2.1 = c
  ∧ (generateImageMod s g p c).2.2.2 = [.checkToken, .generatePost (some t)] := by
  cases g <;> simp [generateImageMod, checkTokenMod, pyStrTruthy, hak, ht]

/-- A run whose credentials already hold a bearer token never exchanges:
credentials stay unchanged, no session GET occurs, the presence test runs
once per call, and every generation POST carries the existing token. -/
theorem runCallsMod_auth_present (t : String) (ht : t ≠ "") :
    ∀ (calls : List (SessionResp × GenResp × Prompt)) (c : Credentials),
      c.authorization_key = some t →
      (runCallsMod calls c).1 = c
      ∧ (runCallsMod calls c).2.count .sessionGet = 0
      ∧ (runCallsMod calls c).2.count .checkToken = calls.length
      ∧ (∀ b, Event.generatePost b ∈ (runCallsMod calls c).2 → b = some t) := by
  intro calls
  induction calls with
  | nil => intro c _; simp [runCallsMod]
  | cons call rest ih =>
    intro c hak
    obtain ⟨s, g, p⟩ := call
    obtain ⟨hcreds, hevs⟩ := generateImageMod_auth_present s g p c t ht hak
    obtain ⟨ih1, ih2, ih3, ih4⟩ := ih c hak
    refine ⟨?_, ?_, ?_, ?_⟩
    · simp [runCallsMod, hcreds, ih1]
    · simp [runCallsMod, hcreds, hevs, List.count_append, ih2]
    · simp [runCallsMod, hcreds, hevs, List.count_append, ih3, Nat.add_comm]
    · intro b hb
      simp [runCallsMod, hcreds, hevs] at hb
      rcases hb with h | h
      · exact h
      · exact ih4 b h

/-- C3 (amended): on one client instance starting with a cookie and no
bearer token, when the first session GET returns a token, that single
mutate-flagged exchange is the only write to the bearer token after
construction (the final credentials hold exactly that token and an
unchanged cookie), exactly one session GET happens in the whole run, every
generation POST of the run carries that same token unchanged, and the
bearer-token presence test runs once per generation call (not once per
run). -/
theorem C3_exchange_once_token_reused (ck t : String) (cf : Option String)
    (hck : ck ≠ "") (ht : t ≠ "") (g1 : GenResp) (p1 : Prompt)
    (rest : List (SessionResp × GenResp × Prompt)) :
    (runCallsMod ((SessionResp.token t, g1, p1) :: rest)
        { cookie := some ck, authorization_key := none, cookie_file := cf }).1
      = { cookie := some ck, authorization_key := some t, cookie_file := cf }
  ∧ (runCallsMod ((SessionResp.token t, g1, p1) :: rest)
        { cookie := some ck, authorization_key := none, cookie_file := cf }).2.count
        .sessionGet = 1
  ∧ (runCallsMod ((SessionResp.token t, g1, p1) :: rest)
        { cookie := some ck, authorization_key := none, cookie_file := cf }).2.count
        .checkToken = rest.length + 1
  ∧ (∀ b, Event.generatePost b ∈
        (runCallsMod ((SessionResp.token t, g1, p1) :: rest)
          { cookie := some ck, authorization_key := none, cookie_file := cf }).2 →
        b = some t) := by
  have hfirst : (generateImageMod (SessionResp.token t) g1 p1
        { cookie := some ck, authorization_key := none, cookie_file := cf }).2.1
        = { cookie := some ck, authorization_key := some t, cookie_file := cf }
      ∧ (generateImageMod (SessionResp.token t) g1 p1
          { cookie := some ck, authorization_key := none, cookie_file := cf }).2.2.2
        = [.checkToken, .sessionGet, .generatePost (some t)] := by
    cases g1 <;>
      simp [generateImageMod, checkTokenMod, getAuthTokenMod, pyStrTruthy, hck, ht]
  obtain ⟨hc1, hev1⟩ := hfirst
  obtain ⟨r1, r2, r3, r4⟩ := runCallsMod_auth_present t ht rest
    { cookie := some ck, authorization_key := some t, cookie_file := cf } rfl
  refine ⟨?_, ?_, ?_, ?_⟩
  · simp [runCallsMod, hc1, r1]
  · simp [runCallsMod, hc1, hev1, List.count_append, r2]
  · simp [runCallsMod, hc1, hev1, List.count_append, r3, Nat.add_comm]
  · intro b hb
    simp [runCallsMod, hc1, hev1] at hb
    rcases hb with h | h
    · exact h
    · exact r4 b h

/-- C3 witness: the amended theorem on a concrete two-call run (cookie-only
start, first session GET yields `"tok"`). -/
theorem C3_exchange_once_token_reused_witness :
    (runCallsMod ((SessionResp.token "tok", GenResp.transportErr "boom",
          ({ prompt := "a" } : Prompt)) ::
        [(SessionResp.token "zzz", GenResp.badJson, ({ prompt := "b" } : Prompt))])
        { cookie := some sampleCookie, authorization_key := none, cookie_file := none }).1
      = { cookie := some sampleCookie, authorization_key := some "tok", cookie_file := none }
  ∧ (runCallsMod ((SessionResp.token "tok", GenResp.transportErr "boom",
          ({ prompt := "a" } : Prompt)) ::
        [(SessionResp.token "zzz", GenResp.badJson, ({ prompt := "b" } : Prompt))])
        { cookie := some sampleCookie, authorization_key := none, cookie_file := none }).2.count
        .sessionGet = 1
  ∧ (runCallsMod ((SessionResp.token "tok", GenResp.transportErr "boom",
          ({ prompt := "a" } : Prompt)) ::
        [(SessionResp.token "zzz", GenResp.badJson, ({ prompt := "b" } : Prompt))])
        { cookie := some sampleCookie, authorization_key := none, cookie_file := none }).2.count
        .checkToken = 1 + 1
  ∧ (∀ b, Event.generatePost b ∈
        (runCallsMod ((SessionResp.token "tok", GenResp.transportErr "boom",
            ({ prompt := "a" } : Prompt)) ::
          [(SessionResp.token "zzz", GenResp.badJson, ({ prompt := "b" } : Prompt))])
          { cookie := some sampleCookie, authorization_key := none, cookie_file := none }).2 →
        b = some "tok") :=
  C3_exchange_once_token_reused sampleCookie "tok" none (by decide) (by decide)
    (GenResp.transportErr "boom") { prompt := "a" }
    [(SessionResp.token "zzz", GenResp.badJson, { prompt := "b" })]

/-- `ImageFX.check_token` of the app copy (`imagefx_streamlit.py` lines
244-259): like the module version (its `get_auth_token` is line-for-line the
module's, so `getAuthTokenMod` is reused), plus a verification that the
mutate-flagged exchange actually left a truthy token behind. -/
def checkTokenApp (resp : SessionResp) (c : Credentials) :
    Except String Bool × Credentials × List Event :=
  if !pyStrTruthy c.authorization_key && !pyStrTruthy c.cookie then
    (.error "Authorization token and Cookie both are missing.", c, [.checkToken])
  else if pyStrTruthy c.cookie && !pyStrTruthy c.authorization_key then
    match getAuthTokenMod true resp c with
    | (.error m, c1, evs) => (.error m, c1, .checkToken :: evs)
    | (.ok _, c1, evs) =>
      if !pyStrTruthy c1.authorization_key then
        (.error "Failed to obtain authorization token from cookie", c1, .checkToken :: evs)
      else (.ok true, c1, .checkToken :: evs)
  else (.ok true, c, [.checkToken])

/-- The app copy of `ImageFX.generate_image` (`imagefx_streamlit.py` lines
288-378): check the token, POST the body built by `buildRequestApp`, decode
with the lenient parser.  All decode failures are returned (the catch-all
`except Exception` keeps exceptions inside), so the result is an
`Except`. -/
def generateImageApp (sresp : SessionResp) (gresp : GenResp) (p : Prompt) (c : Credentials) :
    Except String (List GeneratedImage) × Credentials × List Event :=
  match checkTokenApp sresp c with
  | (.error m, c1, evs) => (.error m, c1, evs)
  | (.ok _, c1, evs) =>
    let evs2 := evs ++ [.generatePost c1.authorization_key]
    match gresp with
    | .transportErr m => (.error m, c1, evs2)
    | .badJson => (.error "Failed to parse JSON", c1, evs2)
    | .body j => (parseGenResponseApp p.prompt (actualModelApp p) j, c1, evs2)

/-- The run-wide inputs of the Streamlit orchestrator: the credential
values entered in the UI (each worker constructs its own `Credentials` from
them), the cookie-file collaborator, and the generation settings. -/
structure OrchEnv where
  creds : Credentials
  fileTokens : String → Option (Option String)
  count : Option Int
  seed : Option Int
  model : String
  aspect_ratio : String

/-- The failure record that `process_single_prompt` builds on error
(`imagefx_streamlit.py` lines 1172-1177): prompt text, error message, and
`prompt_index + 1` where `prompt_index` is the 1-based enumerate value.
`projectTitle` is attached later by the aggregation loop (line 1329). -/
structure FailureEntry where
  prompt : String
  error : String
  index : Nat
  projectTitle : String := ""
deriving Repr, DecidableEq

/-- The quadruple returned by `process_single_prompt`. -/
structure WorkerResult where
  images : Option (List GeneratedImage)
  promptText : String
  error : Option String
  errorData : Option FailureEntry
deriving Repr

/-- The body of `process_single_prompt` up to the error/success split
(`imagefx_streamlit.py` lines 1150-1169): construct fresh `Credentials` and
an `ImageFX` from the run-wide inputs (a raised `ValueError` is caught by
the worker's `except` and becomes the error path), build the prompt from the
stripped text and the run settings, and call `generate_image` with this
prompt's upstream responses. -/
def workerCore (env : OrchEnv) (text : String) (orc : SessionResp × GenResp) :
    Except String (List GeneratedImage) × List Event :=
  match initImageFX env.creds env.fileTokens with
  | .error e => (.error e, [])
  | .ok c0 =>
    let p : Prompt := { prompt := text.trim, count := env.count, seed := env.seed,
                        model := env.model, aspect_ratio := env.aspect_ratio }
    let r := generateImageApp orc.1 orc.2 p c0
    (r.1, r.2.2)

/-- `process_single_prompt` (`imagefx_streamlit.py` lines 1147-1193): on
error, the quadruple `(None, text, error, error_data)` with
`error_data.index = prompt_index + 1`; on success, every image's `prompt`
attribute is overwritten with the raw prompt text (line 1182) and the
quadruple `(images, text, None, None)` is returned. -/
def workerRun (env : OrchEnv) (idx : Nat) (text : String) (orc : SessionResp × GenResp) :
    WorkerResult × List Event :=
  match workerCore env text orc with
  | (.error e, evs) =>
    ({ images := none, promptText := text, error := some e,
       errorData := some { prompt := text, error := e, index := idx + 1 } }, evs)
  | (.ok imgs, evs) =>
    ({ images := some (imgs.map (fun im => { im with prompt := Json.str text })),
       promptText := text, error := none, errorData := none }, evs)

/-- The run-level aggregate the orchestrator accumulates. -/
structure RunState where
  allImages : List GeneratedImage := []
  failures : List FailureEntry := []
deriving Repr

/-- The aggregation of one worker result (`imagefx_streamlit.py` lines
1316-1341): a truthy error with error data appends the failure record
(stamped with the project title) to `failed_prompts`; otherwise a truthy
image list is stamped with the project title and extended onto
`all_generated_images`; anything else changes nothing. -/
def aggregate (title : String) (r : WorkerResult) (s : RunState) : RunState :=
  if (match r.error with | some e => e != "" | none => false) then
    match r.errorData with
    | some fd => { s with failures := s.failures ++ [{ fd with projectTitle := title }] }
    | none => s
  else if (match r.images with | some l => !l.isEmpty | none => false) then
    { s with allImages := s.allImages ++
        (r.images.getD []).map (fun im => { im with projectTitle := title }) }
  else s

/-- Python `enumerate(l, start)`. -/
def pyEnumerate {α : Type} (start : Nat) : List α → List (Nat × α)
  | [] => []
  | a :: rest => (start, a) :: pyEnumerate (start + 1) rest

/-- The batch partition `project_prompts[batch_start:batch_end]` for
`batch_size = 3` (`imagefx_streamlit.py` lines 1257-1262). -/
def chunks3 {α : Type} : List α → List (List α)
  | [] => []
  | a :: b :: c :: rest => [a, b, c] :: chunks3 rest
  | l => [l]

/-- One batch (`imagefx_streamlit.py` lines 1279-1341): every member's
worker runs (concurrently in the source; completion order is modelled as
submission order, which the claims' counting and membership statements do
not depend on), then the collected results are aggregated in order. -/
def processChunk (env : OrchEnv) (title : String)
    (chunk : List (Nat × String × (SessionResp × GenResp))) (s : RunState) :
    RunState × List Event :=
  let results := chunk.map (fun it => workerRun env it.1 it.2.1 it.2.2)
  (results.foldl (fun st r => aggregate title r.1 st) s,
   (results.map (fun r => r.2)).flatten)

/-- One project (`imagefx_streamlit.py` lines 1224-1367): its prompts are
enumerated from 1, split into batches of 3, and the batches run
sequentially. -/
def processProject (env : OrchEnv) (title : String)
    (items : List (String × SessionResp × GenResp)) (s : RunState) :
    RunState × List Event :=
  (chunks3 (pyEnumerate 1 items)).foldl
    (fun acc ch =>
      let r := processChunk env title ch acc.1
      (r.1, acc.2 ++ r.2))
    (s, [])

/-- One entry of `valid_projects`. -/
structure ProjectData where
  title : String
  prompts : List String
  project_index : Nat
deriving Repr, DecidableEq

/-- The per-project prompt-count validation loop (`imagefx_streamlit.py`
lines 1125-1132): the first project with more than 50 prompts aborts the
run. -/
def findOversized :
    List (ProjectData × List (SessionResp × GenResp)) → Option ProjectData
  | [] => none
  | pr :: rest => if 50 < pr.1.prompts.length then some pr.1 else findOversized rest

/-- The generation run (`imagefx_streamlit.py` lines 1124-1371): validate
every project's prompt count up front (a violation aborts with an error
before any worker, hence any network call, runs), then process the projects
in order, each prompt paired with its upstream responses.  The second
component collects every network-related event of the run. -/
def runGeneration (env : OrchEnv)
    (projects : List (ProjectData × List (SessionResp × GenResp))) :
    Except String RunState × List Event :=
  match findOversized projects with
  | some pd =>
    (.error ("Project '" ++ pd.title ++
      "' has too many prompts. Maximum allowed is 50 prompts per project."), [])
  | none =>
    let r := projects.foldl
      (fun acc pr =>
        let q := processProject env pr.1.title (pr.1.prompts.zip pr.2) acc.1
        (q.1, acc.2 ++ q.2))
      ({ allImages := [], failures := [] }, [])
    (.ok r.1, r.2)

/-- A project containing an oversized prompt list makes the validation loop
report it. -/
theorem findOversized_of_mem :
    ∀ (projects : List (ProjectData × List (SessionResp × GenResp)))
      (pr : ProjectData × List (SessionResp × GenResp)),
      pr ∈ projects → 50 < pr.1.prompts.length →
      ∃ pd, findOversized projects = some pd := by
  intro projects
  induction projects with
  | nil => intro pr h; exact absurd h (List.not_mem_nil pr)
  | cons q rest ih =>
    intro pr hmem hbig
    by_cases hq : 50 < q.1.prompts.length
    · exact ⟨q.1, by simp [findOversized, hq]⟩
    · rcases List.mem_cons.mp hmem with h | h
      · rw [h] at hbig; exact absurd hbig hq
      · obtain ⟨pd, hpd⟩ := ih pr h hbig
        exact ⟨pd, by simp [findOversized, hq, hpd]⟩

/-- C6: a run containing a project with more than 50 prompts is rejected
with a validation error, and no network call of any kind is issued: the
event trace of the run is empty (zero session GETs and zero generation
POSTs). -/
theorem C6_oversized_project_rejected_without_network (env : OrchEnv)
    (projects : List (ProjectData × List (SessionResp × GenResp)))
    (pr : ProjectData × List (SessionResp × GenResp))
    (hmem : pr ∈ projects) (hbig : 50 < pr.1.prompts.length) :
    (∃ msg, (runGeneration env projects).1 = .error msg)
  ∧ (runGeneration env projects).2 = [] := by
  obtain ⟨pd, hpd⟩ := findOversized_of_mem projects pr hmem hbig
  constructor
  · exact ⟨"Project '" ++ pd.title ++
      "' has too many prompts. Maximum allowed is 50 prompts per project.",
      by simp [runGeneration, hpd]⟩
  · simp [runGeneration, hpd]

/-- A run-environment with no meaningful credentials, used for validation
scenarios that must never reach a worker. -/
def plainEnv : OrchEnv :=
  { creds := { cookie := none, authorization_key := some "tok", cookie_file := none }
    fileTokens := fun _ => none
    count := some 1
    seed := none
    model := "IMAGEN_4"
    aspect_ratio := "IMAGE_ASPECT_RATIO_LANDSCAPE" }

/-- A project with exactly 51 prompts. -/
def project51 : ProjectData :=
  { title := "big", prompts := List.replicate 51 "p", project_index := 1 }

/-- C6 witness: the theorem applied to a run whose only project has exactly
51 prompts. -/
theorem C6_oversized_project_rejected_without_network_witness :
    (∃ msg, (runGeneration plainEnv [(project51, [])]).1 = .error msg)
  ∧ (runGeneration plainEnv [(project51, [])]).2 = [] :=
  C6_oversized_project_rejected_without_network plainEnv [(project51, [])]
    (project51, []) (by simp) (by simp [project51])

/-- One aggregation step of the per-batch result loop, seen per prompt. -/
def stepAgg (env : OrchEnv) (title : String) (st : RunState)
    (it : Nat × String × (SessionResp × GenResp)) : RunState :=
  aggregate title (workerRun env it.1 it.2.1 it.2.2).1 st

/-- Whether a prompt's worker succeeds with a non-empty image list (the
enumerate index only influences the failure record, so probing at index 1
is representative). -/
def workerOkB (env : OrchEnv) (text : String) (orc : SessionResp × GenResp) : Bool :=
  match (workerRun env 1 text orc).1 with
  | { images := some l, promptText := _, error := none, errorData := none } => !l.isEmpty
  | _ => false

/-- The images a successful worker reports: the decoded images with the
`prompt` attribute overwritten by the raw prompt text. -/
def workerImages (env : OrchEnv) (text : String) (orc : SessionResp × GenResp) :
    List GeneratedImage :=
  match workerCore env text orc with
  | (.ok imgs, _) => imgs.map (fun im => { im with prompt := Json.str text })
  | _ => []

/-- The images a list of all-successful prompts contributes to the run
aggregate, each stamped with the owning project's title. -/
def okImagesOf (env : OrchEnv) (title : String)
    (items : List (String × SessionResp × GenResp)) : List GeneratedImage :=
  (items.map (fun it =>
    (workerImages env it.1 it.2).map (fun im => { im with projectTitle := title }))).flatten

/-- The images a list of all-successful projects contributes to the run. -/
def okImagesOfProjects (env : OrchEnv)
    (ps : List (ProjectData × List (SessionResp × GenResp))) : List GeneratedImage :=
  (ps.map (fun pr => okImagesOf env pr.1.title (pr.1.prompts.zip pr.2))).flatten

/-- Resolution of bearer-token-only credentials is the identity. -/
theorem initImageFX_auth_only (ak : String) (ft : String → Option (Option String))
    (hak : ak ≠ "") :
    initImageFX { cookie := none, authorization_key := some ak, cookie_file := none } ft
      = .ok { cookie := none, authorization_key := some ak, cookie_file := none } := by
  simp [initImageFX, finishInit, pyStrTruthy, hak]

/-- A worker whose generation POST fails in transport reports exactly the
failure quadruple, with `index` one past its enumerate value. -/
theorem workerRun_failure_auth_only (env : OrchEnv) (ak : String)
    (henv : env.creds = { cookie := none, authorization_key := some ak, cookie_file := none })
    (hak : ak ≠ "") (idx : Nat) (text : String) (s : SessionResp) (e : String) :
    (workerRun env idx text (s, GenResp.transportErr e)).1 =
      { images := none, promptText := text, error := some e,
        errorData := some { prompt := text, error := e, index := idx + 1 } } := by
  simp [workerRun, workerCore, henv, initImageFX_auth_only ak env.fileTokens hak,
        generateImageApp, checkTokenApp, pyStrTruthy, hak]

/-- A worker that `workerOkB` accepts returns the success quadruple with
its non-empty stamped image list, at every enumerate index. -/
theorem workerRun_of_ok (env : OrchEnv) (text : String) (orc : SessionResp × GenResp)
    (h : workerOkB env text orc = true) :
    (workerImages env text orc).isEmpty = false
  ∧ ∀ idx, (workerRun env idx text orc).1 =
      { images := some (workerImages env text orc), promptText := text,
        error := none, errorData := none } := by
  cases hcore : workerCore env text orc with
  | mk res evs =>
    cases res with
    | error e =>
      simp [workerOkB, workerRun, hcore] at h
    | ok imgs =>
      simp only [workerOkB, workerRun, hcore] at h
      constructor
      · simp only [workerImages, hcore]
        simpa using h
      · intro idx
        simp only [workerRun, workerImages, hcore]

/-- Aggregating a failure quadruple appends exactly one failure record,
stamped with the project title; the image list is untouched. -/
theorem aggregate_failure (title text e : String) (idx : Nat) (s : RunState) (he : e ≠ "") :
    aggregate title { images := none, promptText := text, error := some e,
                      errorData := some { prompt := text, error := e, index := idx } } s
      = { s with failures := s.failures ++
          [{ prompt := text, error := e, index := idx, projectTitle := title }] } := by
  simp [aggregate, he]

/-- Aggregating a success quadruple appends exactly the stamped images; the
failure list is untouched. -/
theorem aggregate_success (title : String) (imgs : List GeneratedImage) (s : RunState)
    (text : String) (hne : imgs.isEmpty = false) :
    aggregate title { images := some imgs, promptText := text, error := none,
                      errorData := none } s
      = { s with allImages := s.allImages ++
          imgs.map (fun im => { im with projectTitle := title }) } := by
  simp [aggregate, hne]

/-- The state component of a state-and-events fold is the fold of the state
components. -/
theorem foldl_fst_of_pair {α : Type} (F : RunState → α → RunState × List Event) :
    ∀ (l : List α) (b : RunState) (e : List Event),
      (l.foldl (fun acc ch => ((F acc.1 ch).1, acc.2 ++ (F acc.1 ch).2)) (b, e)).1
        = l.foldl (fun st ch => (F st ch).1) b := by
  intro l
  induction l with
  | nil => intro b e; rfl
  | cons a l ih => intro b e; exact ih _ _

/-- Folding batch-by-batch over the batches of three is folding over the
original list. -/
theorem foldl_chunks3 {α β : Type} (f : β → α → β) :
    (l : List α) → (b : β) →
      (chunks3 l).foldl (fun acc ch => ch.foldl f acc) b = l.foldl f b
  | [], _ => rfl
  | [_], _ => rfl
  | [_, _], _ => rfl
  | _ :: _ :: _ :: rest, b => by
    simp only [chunks3, List.foldl]
    exact foldl_chunks3 f rest _

/-- The state after one batch is the per-prompt aggregation fold over the
batch. -/
theorem processChunk_fst (env : OrchEnv) (title : String)
    (ch : List (Nat × String × (SessionResp × GenResp))) (s : RunState) :
    (processChunk env title ch s).1 = ch.foldl (stepAgg env title) s := by
  exact List.foldl_map (fun it => workerRun env it.1 it.2.1 it.2.2)
    (fun st r => aggregate title r.1 st) ch s

/-- The state after a project is the batch-fold over its batches. -/
theorem processProject_fst (env : OrchEnv) (title : String)
    (items : List (String × SessionResp × GenResp)) (s : RunState) :
    (processProject env title items s).1
      = (chunks3 (pyEnumerate 1 items)).foldl
          (fun st ch => (processChunk env title ch st).1) s := by
  unfold processProject
  exact foldl_fst_of_pair (fun st ch => processChunk env title ch st) _ s []

/-- The state after a project is the flat per-prompt fold over its
enumerated prompts: batching into threes does not change the aggregate. -/
theorem processProject_state (env : OrchEnv) (title : String)
    (items : List (String × SessionResp × GenResp)) (s : RunState) :
    (processProject env title items s).1
      = (pyEnumerate 1 items).foldl (stepAgg env title) s := by
  rw [processProject_fst]
  simp only [processChunk_fst]
  exact foldl_chunks3 (stepAgg env title) (pyEnumerate 1 items) s

/-- Enumeration distributes over append. -/
theorem pyEnumerate_append {α : Type} :
    ∀ (l1 l2 : List α) (start : Nat),
      pyEnumerate start (l1 ++ l2)
        = pyEnumerate start l1 ++ pyEnumerate (start + l1.length) l2 := by
  intro l1
  induction l1 with
  | nil => intro l2 start; simp [pyEnumerate]
  | cons a l ih =>
    intro l2 start
    simp only [List.cons_append, pyEnumerate, List.length_cons, List.append_eq]
    rw [ih, show start + 1 + l.length = start + (l.length + 1) from by omega]

/-- Folding the aggregation over all-successful prompts appends exactly
their stamped images and leaves the failure list untouched. -/
theorem fold_allOk (env : OrchEnv) (title : String) :
    ∀ (items : List (String × SessionResp × GenResp)) (start : Nat) (st : RunState),
      (∀ it ∈ items, workerOkB env it.1 it.2 = true) →
      (pyEnumerate start items).foldl (stepAgg env title) st
        = { st with allImages := st.allImages ++ okImagesOf env title items } := by
  intro items
  induction items with
  | nil => intro start st _; simp [pyEnumerate, okImagesOf]
  | cons it rest ih =>
    intro start st hok
    obtain ⟨hne, hrun⟩ := workerRun_of_ok env it.1 it.2 (hok it (List.mem_cons_self _ _))
    have hok2 : ∀ x ∈ rest, workerOkB env x.1 x.2 = true :=
      fun x hx => hok x (List.mem_cons_of_mem _ hx)
    simp only [pyEnumerate, List.foldl, stepAgg]
    rw [hrun start, aggregate_success title _ st it.1 hne, ih (start + 1) _ hok2]
    simp [okImagesOf, List.append_assoc]

/-- A run whose projects all satisfy the prompt-count bound passes
validation. -/
theorem findOversized_none :
    ∀ (projects : List (ProjectData × List (SessionResp × GenResp))),
      (∀ pr ∈ projects, pr.1.prompts.length ≤ 50) →
      findOversized projects = none := by
  intro projects
  induction projects with
  | nil => intro _; rfl
  | cons q rest ih =>
    intro h
    have hq : ¬ 50 < q.1.prompts.length := Nat.not_lt.mpr (h q (List.mem_cons_self _ _))
    simp [findOversized, hq, ih (fun pr hpr => h pr (List.mem_cons_of_mem _ hpr))]

/-- The run result after successful validation is the project-by-project
state fold. -/
theorem runGeneration_fst (env : OrchEnv)
    (projects : List (ProjectData × List (SessionResp × GenResp)))
    (hnone : findOversized projects = none) :
    (runGeneration env projects).1
      = .ok (projects.foldl
          (fun st pr => (processProject env pr.1.title (pr.1.prompts.zip pr.2) st).1)
          { allImages := [], failures := [] }) := by
  simp only [runGeneration, hnone]
  exact congrArg Except.ok
    (foldl_fst_of_pair (fun st pr => processProject env pr.1.title (pr.1.prompts.zip pr.2) st)
      projects _ [])

/-- Folding the run over all-successful projects appends exactly their
stamped images and leaves the failure list untouched. -/
theorem runFold_allOk (env : OrchEnv) :
    ∀ (ps : List (ProjectData × List (SessionResp × GenResp))) (st : RunState),
      (∀ pr ∈ ps, ∀ it ∈ pr.1.prompts.zip pr.2, workerOkB env it.1 it.2 = true) →
      ps.foldl (fun st pr => (processProject env pr.1.title (pr.1.prompts.zip pr.2) st).1) st
        = { st with allImages := st.allImages ++ okImagesOfProjects env ps } := by
  intro ps
  induction ps with
  | nil => intro st _; simp [okImagesOfProjects]
  | cons pr rest ih =>
    intro st hok
    have hpr := hok pr (List.mem_cons_self _ _)
    have hrest : ∀ q ∈ rest, ∀ it ∈ q.1.prompts.zip q.2, workerOkB env it.1 it.2 = true :=
      fun q hq => hok q (List.mem_cons_of_mem _ hq)
    simp only [List.foldl]
    rw [processProject_state, fold_allOk env pr.1.title _ 1 st hpr, ih _ hrest]
    simp [okImagesOfProjects, List.append_assoc]

/-- A project in which exactly one prompt's generation POST fails in
transport and every other prompt succeeds contributes exactly one failure
record (carrying that prompt's text, its index slot, and the project title)
and all the other prompts' stamped images. -/
theorem processProject_one_failure (env : OrchEnv) (ak : String)
    (henv : env.creds = { cookie := none, authorization_key := some ak, cookie_file := none })
    (hak : ak ≠ "") (title : String)
    (Z1 Z2 : List (String × SessionResp × GenResp)) (tf : String) (sf : SessionResp)
    (e : String) (he : e ≠ "") (st : RunState)
    (hok1 : ∀ it ∈ Z1, workerOkB env it.1 it.2 = true)
    (hok2 : ∀ it ∈ Z2, workerOkB env it.1 it.2 = true) :
    (processProject env title (Z1 ++ (tf, sf, GenResp.transportErr e) :: Z2) st).1
      = { allImages := st.allImages ++ okImagesOf env title Z1 ++ okImagesOf env title Z2,
          failures := st.failures ++ [{ prompt := tf, error := e, index := Z1.length + 2,
                                        projectTitle := title }] } := by
  rw [processProject_state, pyEnumerate_append, List.foldl_append,
    fold_allOk env title Z1 1 st hok1]
  simp only [pyEnumerate, List.foldl, stepAgg]
  rw [workerRun_failure_auth_only env ak henv hak (1 + Z1.length) tf sf e,
    aggregate_failure title tf e (1 + Z1.length + 1) _ he,
    fold_allOk env title Z2 (1 + Z1.length + 1) _ hok2,
    show 1 + Z1.length + 1 = Z1.length + 2 from by omega]

/-- C1: in a run whose credentials carry a bearer token, if exactly one
prompt's upstream generation call fails in transport (for example a non-2xx
status) and every other prompt of every project succeeds with images, the
run still completes with a result: the failures list contains exactly the
one record carrying that prompt's text, its index slot and its project's
title, the images of all other prompts — including every prompt of the
same batch and of all later batches and projects — are in the aggregate
image list in order, and no batch or project after the failure is
skipped. -/
theorem C1_single_failure_isolated (env : OrchEnv) (ak : String)
    (henv : env.creds = { cookie := none, authorization_key := some ak, cookie_file := none })
    (hak : ak ≠ "")
    (P1 P2 : List (ProjectData × List (SessionResp × GenResp)))
    (pd : ProjectData) (T1 T2 : List String) (tf : String)
    (O1 O2 : List (SessionResp × GenResp)) (sf : SessionResp) (e : String)
    (hprompts : pd.prompts = T1 ++ tf :: T2)
    (hlen1 : T1.length = O1.length)
    (he : e ≠ "")
    (hvalid : ∀ pr ∈ P1 ++ (pd, O1 ++ (sf, GenResp.transportErr e) :: O2) :: P2,
        pr.1.prompts.length ≤ 50)
    (hokP1 : ∀ pr ∈ P1, ∀ it ∈ pr.1.prompts.zip pr.2, workerOkB env it.1 it.2 = true)
    (hokP2 : ∀ pr ∈ P2, ∀ it ∈ pr.1.prompts.zip pr.2, workerOkB env it.1 it.2 = true)
    (hokT1 : ∀ it ∈ T1.zip O1, workerOkB env it.1 it.2 = true)
    (hokT2 : ∀ it ∈ T2.zip O2, workerOkB env it.1 it.2 = true) :
    (runGeneration env (P1 ++ (pd, O1 ++ (sf, GenResp.transportErr e) :: O2) :: P2)).1
      = .ok { allImages := okImagesOfProjects env P1
                ++ okImagesOf env pd.title (T1.zip O1)
                ++ okImagesOf env pd.title (T2.zip O2)
                ++ okImagesOfProjects env P2,
              failures := [{ prompt := tf, error := e, index := T1.length + 2,
                             projectTitle := pd.title }] } := by
  have hov := findOversized_none _ hvalid
  rw [runGeneration_fst env _ hov, List.foldl_append, runFold_allOk env P1 _ hokP1]
  simp only [List.foldl]
  rw [hprompts, List.zip_append hlen1, List.zip_cons_cons,
    processProject_one_failure env ak henv hak pd.title (T1.zip O1) (T2.zip O2) tf sf e he _
      hokT1 hokT2,
    runFold_allOk env P2 _ hokP2]
  have hz : (T1.zip O1).length = T1.length := by
    rw [List.length_zip, hlen1, Nat.min_self]
  rw [hz]
  simp

/-- A generation response with one image panel carrying one usable image. -/
def goodResponse : Json :=
  .obj [("imagePanels",
    .arr [.obj [("generatedImages", .arr [.obj [("encodedImage", .str "IMG")]])]])]

/-- Upstream responses for a prompt whose generation succeeds. -/
def okOracle : SessionResp × GenResp := (.token "t", .body goodResponse)

/-- The run environment of the C1 scenario: a bearer token is provided. -/
def c1Env : OrchEnv :=
  { creds := { cookie := none, authorization_key := some "tok", cookie_file := none }
    fileTokens := fun _ => none
    count := some 1
    seed := none
    model := "IMAGEN_4"
    aspect_ratio := "IMAGE_ASPECT_RATIO_LANDSCAPE" }

/-- Project A of the C1 scenario: two prompts, the second one fails. -/
def projA : ProjectData := { title := "A", prompts := ["cat", "dog"], project_index := 1 }

/-- Project B of the C1 scenario: processed after the failure. -/
def projB : ProjectData := { title := "B", prompts := ["bird"], project_index := 2 }

/-- C1 witness: the theorem applied to a concrete two-project run in which
the second prompt of project A fails in transport and the prompts of
project A (first) and project B succeed. -/
theorem C1_single_failure_isolated_witness :
    (runGeneration c1Env
        ([] ++ (projA, [okOracle] ++ (SessionResp.token "t", GenResp.transportErr "boom") :: [])
          :: [(projB, [okOracle])])).1
      = .ok { allImages := okImagesOfProjects c1Env []
                ++ okImagesOf c1Env projA.title (["cat"].zip [okOracle])
                ++ okImagesOf c1Env projA.title (([] : List String).zip
                    ([] : List (SessionResp × GenResp)))
                ++ okImagesOfProjects c1Env [(projB, [okOracle])],
              failures := [{ prompt := "dog", error := "boom",
                             index := (["cat"] : List String).length + 2,
                             projectTitle := projA.title }] } :=
  C1_single_failure_isolated c1Env "tok" rfl (by decide) [] [(projB, [okOracle])]
    projA ["cat"] [] "dog" [okOracle] [] (SessionResp.token "t") "boom"
    rfl rfl (by decide) (by decide) (by simp) (by decide) (by decide) (by simp)
